import Mathlib

/-
  Shallow embedding of the dirty-flag configuration-reconciliation core of
  the GlobalIlluminationVct and GlobalIlluminationCiVct GUI plugins
  (src/src/gui/plugins/global_illumination_vct/GlobalIlluminationVct.cc and
   src/src/gui/plugins/global_illumination_civct/GlobalIlluminationCiVct.cc).

  The plugin's private data (`GlobalIlluminationVctPrivate` /
  `GlobalIlluminationCiVctPrivate`) becomes an explicit state record; each
  mutex-guarded member function becomes a function on that record.  The
  external rendering-engine GI object is modelled by the small record of
  engine-side facts the plugin observes (`Started()`, `Enabled()`, the
  engine-mirror cascade list length), plus an explicit trace of the engine
  calls a render tick issues, so that "which engine operations ran" is a
  statable observable.  `uint32_t` values only ever stored and compared are
  modelled as `Nat`; the `float` thinWallCounter, only ever stored verbatim
  and read back, is modelled as `Rat`.
-/

namespace GzGi

/-- Debug visualization mode constants of
    `rendering::GlobalIlluminationVct::DebugVisualizationMode` (and the CiVct
    twin): Albedo, Normal, Emissive, Lighting, None, stored by the plugins in
    a `uint32_t` field. -/
def DVM_Albedo : Nat := 0

/-- Debug visualization mode `DVM_Normal`. -/
def DVM_Normal : Nat := 1

/-- Debug visualization mode `DVM_Emissive`. -/
def DVM_Emissive : Nat := 2

/-- Debug visualization mode `DVM_Lighting`. -/
def DVM_Lighting : Nat := 3

/-- Debug visualization mode `DVM_None` (the highest value; the default). -/
def DVM_None : Nat := 4

/-- A `uint32_t[3]` per-axis value (resolution / octant count). -/
structure UVec3 where
  x : Nat
  y : Nat
  z : Nat
  deriving DecidableEq, Repr

/-- Write one axis of a `uint32_t[3]` array (`arr[_axis] = v`). -/
def UVec3.setAxis (v : UVec3) (axis : Fin 3) (val : Nat) : UVec3 :=
  match axis with
  | ⟨0, _⟩ => { v with x := val }
  | ⟨1, _⟩ => { v with y := val }
  | ⟨2, _⟩ => { v with z := val }

/-- Read one axis of a `uint32_t[3]` array (`arr[_axis]`). -/
def UVec3.getAxis (v : UVec3) (axis : Fin 3) : Nat :=
  match axis with
  | ⟨0, _⟩ => v.x
  | ⟨1, _⟩ => v.y
  | ⟨2, _⟩ => v.z

/-- Engine-side state of the `rendering::GlobalIlluminationVct` handle as
    observed by the plugin: only `Enabled()` is consulted, and it is toggled
    by `Scene::SetActiveGlobalIllumination`. -/
structure GiVct where
  enabled : Bool
  deriving DecidableEq, Repr

/-- Engine-side state of the `rendering::GlobalIlluminationCiVct` handle as
    observed by the plugin: `Started()` (set by `Start`), `Enabled()`
    (toggled by `Scene::SetActiveGlobalIllumination`), and the length of the
    engine's mirrored cascade list (grown by `AddCascade`, shrunk by
    `PopCascade`). -/
structure GiCiVct where
  started : Bool
  enabled : Bool
  cascadeCount : Nat
  deriving DecidableEq, Repr

/-- One call made into the rendering engine (the external EngineAdapter).
    A render tick returns the ordered trace of these calls. -/
inductive EngineCall where
  | setResolution : UVec3 → EngineCall
  | setOctantCount : UVec3 → EngineCall
  | setBounceCount : Nat → EngineCall
  | setHighQuality : Bool → EngineCall
  | setAnisotropic : Bool → EngineCall
  | setThinWallCounter : Rat → EngineCall
  | setConserveMemory : Bool → EngineCall
  | setDebugVisualization : Nat → EngineCall
  | bindCam : Option Nat → EngineCall
  | start : Nat → Bool → EngineCall
  | newSettings : Nat → Bool → EngineCall
  | build : EngineCall
  | lightingChanged : EngineCall
  | setActiveGlobalIllumination : Bool → EngineCall
  | addCascadeCall : EngineCall
  | popCascadeCall : EngineCall
  deriving DecidableEq, Repr

/-- A Qt signal the plugin fires towards the UI. -/
inductive GuiSignal where
  | enabledChanged
  | cameraListChanged
  deriving DecidableEq, Repr

/-- Which arm of the `if / else if / else if` dispatch of `eventFilter`
    executed on a render tick. -/
inductive Branch where
  | rebuild
  | relight
  | debugOnly
  | idle
  | noEngine
  deriving DecidableEq, Repr

/-- Result of one render tick: the successor plugin state, the ordered trace
    of engine calls issued, the Qt signals fired, and the dispatch arm
    taken. -/
structure TickResult (σ : Type) where
  state : σ
  calls : List EngineCall
  signals : List GuiSignal
  branch : Branch
  deriving Repr

/-- The mutex-guarded private data of `GlobalIlluminationVct`
    (`GlobalIlluminationVctPrivate`): the engine handle (absent until
    `LoadGlobalIlluminationVct` succeeds), the desired settings, and the
    three dirty flags. -/
structure VctState where
  gi : Option GiVct
  enabled : Bool
  resolution : UVec3
  octantCount : UVec3
  bounceCount : Nat
  highQuality : Bool
  anisotropic : Bool
  conserveMemory : Bool
  thinWallCounter : Rat
  debugVisMode : Nat
  initialized : Bool
  resetVisual : Bool
  visualDirty : Bool
  lightingDirty : Bool
  debugVisualizationDirty : Bool
  deriving DecidableEq, Repr

/-- Member initializers of `GlobalIlluminationVctPrivate`. -/
def initialVctState : VctState :=
  { gi := none
    enabled := false
    resolution := ⟨16, 16, 16⟩
    octantCount := ⟨1, 1, 1⟩
    bounceCount := 6
    highQuality := true
    anisotropic := true
    conserveMemory := false
    thinWallCounter := 1
    debugVisMode := DVM_None
    initialized := false
    resetVisual := false
    visualDirty := false
    lightingDirty := false
    debugVisualizationDirty := false }

/-- `GlobalIlluminationVct::SetEnabled`: store `_enabled`, mark
    `visualDirty`.  (The C++ member is `void`; it performs no validation.) -/
def GlobalIlluminationVct.SetEnabled (s : VctState) (b : Bool) : VctState :=
  { s with enabled := b, visualDirty := true }

/-- `GlobalIlluminationVct::Enabled`. -/
def GlobalIlluminationVct.Enabled (s : VctState) : Bool :=
  s.enabled

/-- `GlobalIlluminationVct::UpdateResolution`: write `resolution[_axis]`,
    mark `visualDirty`. -/
def GlobalIlluminationVct.UpdateResolution (s : VctState) (axis : Fin 3)
    (res : Nat) : VctState :=
  { s with resolution := s.resolution.setAxis axis res, visualDirty := true }

/-- `GlobalIlluminationVct::UpdateOctantCount`: write `octantCount[_axis]`,
    mark `visualDirty`. -/
def GlobalIlluminationVct.UpdateOctantCount (s : VctState) (axis : Fin 3)
    (cnt : Nat) : VctState :=
  { s with octantCount := s.octantCount.setAxis axis cnt, visualDirty := true }

/-- `GlobalIlluminationVct::SetResolutionX`. -/
def GlobalIlluminationVct.SetResolutionX (s : VctState) (res : Nat) : VctState :=
  GlobalIlluminationVct.UpdateResolution s 0 res

/-- `GlobalIlluminationVct::ResolutionX`. -/
def GlobalIlluminationVct.ResolutionX (s : VctState) : Nat :=
  s.resolution.x

/-- `GlobalIlluminationVct::SetResolutionY`. -/
def GlobalIlluminationVct.SetResolutionY (s : VctState) (res : Nat) : VctState :=
  GlobalIlluminationVct.UpdateResolution s 1 res

/-- `GlobalIlluminationVct::ResolutionY`. -/
def GlobalIlluminationVct.ResolutionY (s : VctState) : Nat :=
  s.resolution.y

/-- `GlobalIlluminationVct::SetResolutionZ`. -/
def GlobalIlluminationVct.SetResolutionZ (s : VctState) (res : Nat) : VctState :=
  GlobalIlluminationVct.UpdateResolution s 2 res

/-- `GlobalIlluminationVct::ResolutionZ`. -/
def GlobalIlluminationVct.ResolutionZ (s : VctState) : Nat :=
  s.resolution.z

/-- `GlobalIlluminationVct::SetOctantCountX`. -/
def GlobalIlluminationVct.SetOctantCountX (s : VctState) (cnt : Nat) : VctState :=
  GlobalIlluminationVct.UpdateOctantCount s 0 cnt

/-- `GlobalIlluminationVct::OctantCountX`. -/
def GlobalIlluminationVct.OctantCountX (s : VctState) : Nat :=
  s.octantCount.x

/-- `GlobalIlluminationVct::SetOctantCountY`. -/
def GlobalIlluminationVct.SetOctantCountY (s : VctState) (cnt : Nat) : VctState :=
  GlobalIlluminationVct.UpdateOctantCount s 1 cnt

/-- `GlobalIlluminationVct::OctantCountY`. -/
def GlobalIlluminationVct.OctantCountY (s : VctState) : Nat :=
  s.octantCount.y

/-- `GlobalIlluminationVct::SetOctantCountZ`. -/
def GlobalIlluminationVct.SetOctantCountZ (s : VctState) (cnt : Nat) : VctState :=
  GlobalIlluminationVct.UpdateOctantCount s 2 cnt

/-- `GlobalIlluminationVct::OctantCountZ`. -/
def GlobalIlluminationVct.OctantCountZ (s : VctState) : Nat :=
  s.octantCount.z

/-- `GlobalIlluminationVct::SetBounceCount`: store, mark `lightingDirty`. -/
def GlobalIlluminationVct.SetBounceCount (s : VctState) (bounces : Nat) : VctState :=
  { s with bounceCount := bounces, lightingDirty := true }

/-- `GlobalIlluminationVct::BounceCount`. -/
def GlobalIlluminationVct.BounceCount (s : VctState) : Nat :=
  s.bounceCount

/-- `GlobalIlluminationVct::SetHighQuality`: store, mark `lightingDirty`. -/
def GlobalIlluminationVct.SetHighQuality (s : VctState) (quality : Bool) : VctState :=
  { s with highQuality := quality, lightingDirty := true }

/-- `GlobalIlluminationVct::HighQuality`. -/
def GlobalIlluminationVct.HighQuality (s : VctState) : Bool :=
  s.highQuality

/-- `GlobalIlluminationVct::SetAnisotropic`: store, mark `lightingDirty`. -/
def GlobalIlluminationVct.SetAnisotropic (s : VctState) (a : Bool) : VctState :=
  { s with anisotropic := a, lightingDirty := true }

/-- `GlobalIlluminationVct::Anisotropic`. -/
def GlobalIlluminationVct.Anisotropic (s : VctState) : Bool :=
  s.anisotropic

/-- `GlobalIlluminationVct::SetConserveMemory`: store, mark `lightingDirty`. -/
def GlobalIlluminationVct.SetConserveMemory (s : VctState) (c : Bool) : VctState :=
  { s with conserveMemory := c, lightingDirty := true }

/-- `GlobalIlluminationVct::ConserveMemory`. -/
def GlobalIlluminationVct.ConserveMemory (s : VctState) : Bool :=
  s.conserveMemory

/-- `GlobalIlluminationVct::SetThinWallCounter`: store, mark
    `lightingDirty`. -/
def GlobalIlluminationVct.SetThinWallCounter (s : VctState) (t : Rat) : VctState :=
  { s with thinWallCounter := t, lightingDirty := true }

/-- `GlobalIlluminationVct::ThinWallCounter`. -/
def GlobalIlluminationVct.ThinWallCounter (s : VctState) : Rat :=
  s.thinWallCounter

/-- `GlobalIlluminationVct::SetDebugVisualizationMode`: store, mark
    `debugVisualizationDirty` unconditionally. -/
def GlobalIlluminationVct.SetDebugVisualizationMode (s : VctState)
    (visMode : Nat) : VctState :=
  { s with debugVisMode := visMode, debugVisualizationDirty := true }

/-- `GlobalIlluminationVct::DebugVisualizationMode`. -/
def GlobalIlluminationVct.DebugVisualizationMode (s : VctState) : Nat :=
  s.debugVisMode

/-- `GlobalIlluminationVct::LoadGlobalIlluminationVct`: attempt to discover
    an engine/scene and create the GI object.  The environment's answer is
    the `avail` argument: `some g` when a loaded engine with an initialized,
    visual-bearing scene yields a GI object (then `scene`/`gi` are stored and
    `initialized` is set), `none` when any of the early-return conditions
    held or `CreateGlobalIlluminationVct` returned null (state unchanged). -/
def GlobalIlluminationVct.LoadGlobalIlluminationVct (avail : Option GiVct)
    (s : VctState) : VctState :=
  match avail with
  | some g => { s with gi := some g, initialized := true }
  | none => s

/-- `GlobalIlluminationVct::eventFilter`, render-event arm: the per-tick
    reconciliation run under the service mutex.  Faithful translation of the
    `if (visualDirty) / else if (lightingDirty) / else if
    (debugVisualizationDirty)` dispatch, with the engine calls issued
    recorded in order. -/
def GlobalIlluminationVct.eventFilter (avail : Option GiVct) (s0 : VctState) :
    TickResult VctState :=
  let s := if s0.initialized then s0
    else GlobalIlluminationVct.LoadGlobalIlluminationVct avail s0
  match s.gi with
  | some g =>
    let s1 := if s.resetVisual then { s with resetVisual := false } else s
    if s1.visualDirty then
      let callsPre : List EngineCall :=
        [EngineCall.setResolution s1.resolution,
         EngineCall.setOctantCount s1.octantCount,
         EngineCall.setBounceCount s1.bounceCount,
         EngineCall.setHighQuality s1.highQuality,
         EngineCall.setAnisotropic s1.anisotropic,
         EngineCall.setThinWallCounter s1.thinWallCounter,
         EngineCall.setConserveMemory s1.conserveMemory,
         EngineCall.setDebugVisualization DVM_None]
      let callsMid : List EngineCall :=
        if s1.enabled then
          [EngineCall.build, EngineCall.setActiveGlobalIllumination true]
        else
          [EngineCall.setActiveGlobalIllumination false]
      let g1 : GiVct := { g with enabled := s1.enabled }
      { state := { s1 with
          gi := some g1
          visualDirty := false
          lightingDirty := false
          debugVisualizationDirty := false }
        calls := callsPre ++ callsMid ++
          [EngineCall.setDebugVisualization s1.debugVisMode]
        signals := []
        branch := Branch.rebuild }
    else if s1.lightingDirty then
      let callsPre : List EngineCall :=
        [EngineCall.setBounceCount s1.bounceCount,
         EngineCall.setHighQuality s1.highQuality,
         EngineCall.setAnisotropic s1.anisotropic,
         EngineCall.setThinWallCounter s1.thinWallCounter,
         EngineCall.setConserveMemory s1.conserveMemory]
      if g.enabled then
        { state := { s1 with
            debugVisualizationDirty := false
            lightingDirty := false }
          calls := callsPre ++
            [EngineCall.setDebugVisualization DVM_None,
             EngineCall.lightingChanged,
             EngineCall.setDebugVisualization s1.debugVisMode]
          signals := []
          branch := Branch.relight }
      else
        { state := { s1 with lightingDirty := false }
          calls := callsPre
          signals := []
          branch := Branch.relight }
    else if s1.debugVisualizationDirty then
      { state := { s1 with debugVisualizationDirty := false }
        calls := [EngineCall.setDebugVisualization s1.debugVisMode]
        signals := []
        branch := Branch.debugOnly }
    else
      { state := s1, calls := [], signals := [], branch := Branch.idle }
  | none =>
    { state := s, calls := [], signals := [], branch := Branch.noEngine }

/-- One registry cascade (`CiVctCascadePrivate` wrapping the engine-created
    `rendering::CiVctCascade`): only the thin-wall counter is touched by the
    code under study. -/
structure Cascade where
  thinWallCounter : Rat
  deriving DecidableEq, Repr

/-- The mutex-guarded private data of `GlobalIlluminationCiVct`
    (`GlobalIlluminationCiVctPrivate`). -/
structure CiVctState where
  gi : Option GiCiVct
  cascades : List Cascade
  enabled : Bool
  resolution : UVec3
  bounceCount : Nat
  highQuality : Bool
  anisotropic : Bool
  debugVisMode : Nat
  bindCamera : Option Nat
  initialized : Bool
  resetVisual : Bool
  visualDirty : Bool
  lightingDirty : Bool
  debugVisualizationDirty : Bool
  deriving DecidableEq, Repr

/-- Member initializers of `GlobalIlluminationCiVctPrivate`. -/
def initialCiVctState : CiVctState :=
  { gi := none
    cascades := []
    enabled := false
    resolution := ⟨16, 16, 16⟩
    bounceCount := 6
    highQuality := true
    anisotropic := true
    debugVisMode := DVM_None
    bindCamera := none
    initialized := false
    resetVisual := false
    visualDirty := false
    lightingDirty := false
    debugVisualizationDirty := false }

/-- `GlobalIlluminationCiVct::SetEnabled`: store `_enabled`, mark
    `visualDirty`.  (The C++ member is `void`; it performs no validation of
    cascades or bound camera.) -/
def GlobalIlluminationCiVct.SetEnabled (s : CiVctState) (b : Bool) : CiVctState :=
  { s with enabled := b, visualDirty := true }

/-- `GlobalIlluminationCiVct::Enabled`. -/
def GlobalIlluminationCiVct.Enabled (s : CiVctState) : Bool :=
  s.enabled

/-- `GlobalIlluminationCiVct::SetBounceCount`: store, mark `lightingDirty`. -/
def GlobalIlluminationCiVct.SetBounceCount (s : CiVctState) (bounces : Nat) :
    CiVctState :=
  { s with bounceCount := bounces, lightingDirty := true }

/-- `GlobalIlluminationCiVct::BounceCount`. -/
def GlobalIlluminationCiVct.BounceCount (s : CiVctState) : Nat :=
  s.bounceCount

/-- `GlobalIlluminationCiVct::SetHighQuality`: store, mark `lightingDirty`. -/
def GlobalIlluminationCiVct.SetHighQuality (s : CiVctState) (quality : Bool) :
    CiVctState :=
  { s with highQuality := quality, lightingDirty := true }

/-- `GlobalIlluminationCiVct::HighQuality`. -/
def GlobalIlluminationCiVct.HighQuality (s : CiVctState) : Bool :=
  s.highQuality

/-- `GlobalIlluminationCiVct::SetAnisotropic`: store, mark `lightingDirty`. -/
def GlobalIlluminationCiVct.SetAnisotropic (s : CiVctState) (a : Bool) :
    CiVctState :=
  { s with anisotropic := a, lightingDirty := true }

/-- `GlobalIlluminationCiVct::Anisotropic`. -/
def GlobalIlluminationCiVct.Anisotropic (s : CiVctState) : Bool :=
  s.anisotropic

/-- `GlobalIlluminationCiVct::SetDebugVisualizationMode`: store, mark
    `debugVisualizationDirty` unconditionally. -/
def GlobalIlluminationCiVct.SetDebugVisualizationMode (s : CiVctState)
    (visMode : Nat) : CiVctState :=
  { s with debugVisMode := visMode, debugVisualizationDirty := true }

/-- `GlobalIlluminationCiVct::DebugVisualizationMode`. -/
def GlobalIlluminationCiVct.DebugVisualizationMode (s : CiVctState) : Nat :=
  s.debugVisMode

/-- `GlobalIlluminationCiVct::AddCascade`: read the last registry cascade as
    the reference (or null when the registry is empty), call the engine's
    `AddCascade(ref)` (which appends one engine-mirror cascade, copying the
    reference when given), append the wrapping `CiVctCascadePrivate` to the
    registry, and on a null reference seed `SetThinWallCounter(1.0f)`.
    Returns the new registry entry.  There is no `Started()` guard in the
    source.  (The C++ dereferences `gi` unconditionally; the `none` arm is
    the unreachable-null placeholder, returning the state unchanged.) -/
def GlobalIlluminationCiVct.AddCascade (s : CiVctState) :
    CiVctState × Option Cascade :=
  match s.gi with
  | none => (s, none)
  | some g =>
    let ref : Option Cascade := s.cascades.getLast?
    let g1 : GiCiVct := { g with cascadeCount := g.cascadeCount + 1 }
    let newCascade : Cascade :=
      match ref with
      | some c => c
      | none => { thinWallCounter := 1 }
    ({ s with gi := some g1, cascades := s.cascades ++ [newCascade] },
     some newCascade)

/-- `GlobalIlluminationCiVct::PopCascade`: when the registry is non-empty,
    pop the last registry cascade and call the engine's `PopCascade` (which
    drops the last engine-mirror cascade); otherwise do nothing.  There is
    no `Started()` guard in the source.  (The `none` arm of `gi` is the
    unreachable-null placeholder.) -/
def GlobalIlluminationCiVct.PopCascade (s : CiVctState) : CiVctState :=
  if s.cascades.isEmpty then s
  else
    match s.gi with
    | none => s
    | some g =>
      { s with
        cascades := s.cascades.dropLast
        gi := some { g with cascadeCount := g.cascadeCount - 1 } }

/-- A cascade-registry mutation issued from the UI: `AddCascade` or
    `PopCascade` (the spec's `RemoveLast`). -/
inductive CascadeOp where
  | add
  | removeLast
  deriving DecidableEq, Repr

/-- Apply a sequence of cascade-registry mutations in order. -/
def applyCascadeOps : List CascadeOp → CiVctState → CiVctState
  | [], s => s
  | CascadeOp.add :: ops, s =>
    applyCascadeOps ops (GlobalIlluminationCiVct.AddCascade s).1
  | CascadeOp.removeLast :: ops, s =>
    applyCascadeOps ops (GlobalIlluminationCiVct.PopCascade s)

/-- The cascade cardinality invariant: whenever the engine handle is
    present, the registry list and the engine-mirror list have the same
    length.  (Vacuously true while the handle is absent.) -/
def cascadeMirrorAligned (s : CiVctState) : Bool :=
  match s.gi with
  | some g => s.cascades.length == g.cascadeCount
  | none => true

/-- `GlobalIlluminationCiVct::LoadGlobalIlluminationCiVct`, abstracted the
    same way as the VCT loader: `avail` is the environment's answer to the
    engine/scene discovery attempt. -/
def GlobalIlluminationCiVct.LoadGlobalIlluminationCiVct (avail : Option GiCiVct)
    (s : CiVctState) : CiVctState :=
  match avail with
  | some g => { s with gi := some g, initialized := true }
  | none => s

/-- `GlobalIlluminationCiVct::eventFilter`, render-event arm.  Differences
    from the VCT twin, straight from the source: an external-disable
    reflection block before the dispatch (`!visualDirty && !gi->Enabled() &&
    enabled` flips local `enabled` and fires `EnabledChanged`), a rebuild
    branch that only forces/restores the debug visualization when
    `gi->Started()`, and that `Bind`s the camera and `Start`s (first
    activation) or pushes `NewSettings` (already started) before `Build`. -/
def GlobalIlluminationCiVct.eventFilter (avail : Option GiCiVct)
    (s0 : CiVctState) : TickResult CiVctState :=
  let s := if s0.initialized then s0
    else GlobalIlluminationCiVct.LoadGlobalIlluminationCiVct avail s0
  match s.gi with
  | some g =>
    let s1 := if s.resetVisual then { s with resetVisual := false } else s
    let ext : Bool := !s1.visualDirty && !g.enabled && s1.enabled
    let s2 := if ext then { s1 with enabled := false } else s1
    let sigs : List GuiSignal := if ext then [GuiSignal.enabledChanged] else []
    if s2.visualDirty then
      let callsA : List EngineCall :=
        [EngineCall.setBounceCount s2.bounceCount,
         EngineCall.setHighQuality s2.highQuality]
      let callsB : List EngineCall :=
        if g.started then [EngineCall.setDebugVisualization DVM_None] else []
      let mid : GiCiVct × List EngineCall :=
        if s2.enabled then
          if !g.started then
            ({ g with started := true, enabled := true },
             [EngineCall.bindCam s2.bindCamera,
              EngineCall.start s2.bounceCount s2.anisotropic,
              EngineCall.build,
              EngineCall.setActiveGlobalIllumination true])
          else
            ({ g with enabled := true },
             [EngineCall.newSettings s2.bounceCount s2.anisotropic,
              EngineCall.build,
              EngineCall.setActiveGlobalIllumination true])
        else
          ({ g with enabled := false },
           [EngineCall.setActiveGlobalIllumination false])
      let g2 := mid.1
      let callsD : List EngineCall :=
        if g2.started then [EngineCall.setDebugVisualization s2.debugVisMode]
        else []
      { state := { s2 with
          gi := some g2
          visualDirty := false
          lightingDirty := false
          debugVisualizationDirty := false }
        calls := callsA ++ callsB ++ mid.2 ++ callsD
        signals := sigs
        branch := Branch.rebuild }
    else if s2.lightingDirty then
      let callsA : List EngineCall :=
        [EngineCall.setBounceCount s2.bounceCount,
         EngineCall.setHighQuality s2.highQuality]
      if g.enabled then
        { state := { s2 with
            debugVisualizationDirty := false
            lightingDirty := false }
          calls := callsA ++
            [EngineCall.setDebugVisualization DVM_None,
             EngineCall.lightingChanged,
             EngineCall.setDebugVisualization s2.debugVisMode]
          signals := sigs
          branch := Branch.relight }
      else
        { state := { s2 with lightingDirty := false }
          calls := callsA
          signals := sigs
          branch := Branch.relight }
    else if s2.debugVisualizationDirty then
      { state := { s2 with debugVisualizationDirty := false }
        calls := [EngineCall.setDebugVisualization s2.debugVisMode]
        signals := sigs
        branch := Branch.debugOnly }
    else
      { state := s2, calls := [], signals := sigs, branch := Branch.idle }
  | none =>
    { state := s, calls := [], signals := [], branch := Branch.noEngine }

/-- Test fixture: a started, currently-disabled CiVct engine handle with no
    engine-mirror cascades. -/
def giStartedEmpty : GiCiVct :=
  { started := true, enabled := false, cascadeCount := 0 }

/-- Test fixture: a started, currently-disabled CiVct engine handle holding
    one engine-mirror cascade. -/
def giStartedOne : GiCiVct :=
  { started := true, enabled := false, cascadeCount := 1 }

/-- Test fixture: a fresh (never started) CiVct engine handle. -/
def giFresh : GiCiVct :=
  { started := false, enabled := false, cascadeCount := 0 }

/-- Test fixture: an initialized CiVct plugin state whose engine has started
    and has no cascades. -/
def ciStartedEmpty : CiVctState :=
  { initialCiVctState with gi := some giStartedEmpty, initialized := true }

/-- Test fixture: an initialized CiVct plugin state whose engine has started
    and holds one cascade, mirrored in the registry. -/
def ciStartedOne : CiVctState :=
  { initialCiVctState with
    gi := some giStartedOne
    initialized := true
    cascades := [{ thinWallCounter := 1 }] }

/-- Test fixture: an initialized CiVct plugin state with a fresh engine
    handle and empty registry. -/
def ciFresh : CiVctState :=
  { initialCiVctState with gi := some giFresh, initialized := true }

/-- Test fixture: an initialized VCT plugin state whose engine reports
    `Enabled() == true`. -/
def vOn : VctState :=
  { initialVctState with gi := some { enabled := true }, initialized := true }

/-- Test fixture: an initialized VCT plugin state whose engine reports
    `Enabled() == false`. -/
def vOff : VctState :=
  { initialVctState with gi := some { enabled := false }, initialized := true }

/-- Test fixture: an initialized CiVct plugin state whose engine has started
    and reports `Enabled() == true`. -/
def cOn : CiVctState :=
  { initialCiVctState with
    gi := some { started := true, enabled := true, cascadeCount := 1 }
    initialized := true
    cascades := [{ thinWallCounter := 1 }] }

/-- Test fixture: an initialized CiVct plugin state whose engine has started
    and reports `Enabled() == false`. -/
def cOff : CiVctState :=
  { initialCiVctState with
    gi := some giStartedOne
    initialized := true
    cascades := [{ thinWallCounter := 1 }] }

/-- Claim C1, counterexample: in the fresh state the cascade registry is
    empty and no camera is bound, yet `SetEnabled(true)` stores
    `enabled = true` (the C++ member is `void` and performs no activation
    gating), contradicting the claim that the stored flag is left `false`. -/
theorem c1_counterexample :
    initialCiVctState.cascades.length = 0 ∧
    initialCiVctState.bindCamera = none ∧
    (GlobalIlluminationCiVct.SetEnabled initialCiVctState true).enabled = true :=
  ⟨rfl, rfl, rfl⟩

/-- Claim C1 (amended): `SetEnabled` stores its argument unconditionally and
    marks `visualDirty`, regardless of the cascade registry or the bound
    camera; it performs no validation, returns no status, and changes no
    other state (in both plugin variants). -/
theorem c1_setEnabled_unconditional :
    ∀ (s : CiVctState) (v : VctState) (b : Bool),
      (GlobalIlluminationCiVct.SetEnabled s b).enabled = b ∧
      (GlobalIlluminationCiVct.SetEnabled s b).visualDirty = true ∧
      (GlobalIlluminationCiVct.SetEnabled s b).cascades = s.cascades ∧
      (GlobalIlluminationCiVct.SetEnabled s b).bindCamera = s.bindCamera ∧
      (GlobalIlluminationCiVct.SetEnabled s b).gi = s.gi ∧
      (GlobalIlluminationVct.SetEnabled v b).enabled = b ∧
      (GlobalIlluminationVct.SetEnabled v b).visualDirty = true ∧
      (GlobalIlluminationVct.SetEnabled v b).gi = v.gi := by
  intro s v b
  simp [GlobalIlluminationCiVct.SetEnabled, GlobalIlluminationVct.SetEnabled]

/-- Claim C2, counterexample: with the engine reporting `Started() == true`,
    `AddCascade` still appends (registry grows 0 → 1) and `PopCascade` still
    pops (registry shrinks 1 → 0): neither operation is a no-op, because the
    source has no `Started()` guard. -/
theorem c2_counterexample :
    giStartedEmpty.started = true ∧
    (GlobalIlluminationCiVct.AddCascade ciStartedEmpty).1.cascades.length = 1 ∧
    (GlobalIlluminationCiVct.PopCascade ciStartedOne).cascades.length = 0 := by
  decide

/-- Claim C2 (amended): whenever the engine handle is present, `AddCascade`
    appends one cascade to the registry and to the engine mirror and returns
    the new (non-null) entry, and `PopCascade` on a non-empty registry pops
    one from both — in both cases irrespective of `Started()`. -/
theorem c2_cascade_ops_unguarded :
    ∀ (s : CiVctState) (g : GiCiVct), s.gi = some g →
      ((GlobalIlluminationCiVct.AddCascade s).1.cascades.length =
        s.cascades.length + 1 ∧
       (GlobalIlluminationCiVct.AddCascade s).1.gi =
        some { g with cascadeCount := g.cascadeCount + 1 } ∧
       (GlobalIlluminationCiVct.AddCascade s).2 ≠ none) ∧
      (s.cascades ≠ [] →
        (GlobalIlluminationCiVct.PopCascade s).cascades.length =
          s.cascades.length - 1 ∧
        (GlobalIlluminationCiVct.PopCascade s).gi =
          some { g with cascadeCount := g.cascadeCount - 1 }) := by
  intro s g hg
  constructor
  · simp [GlobalIlluminationCiVct.AddCascade, hg]
  · intro hne
    simp [GlobalIlluminationCiVct.PopCascade, hg, List.isEmpty_iff, hne,
      List.length_dropLast]

/-- Witness for `c2_cascade_ops_unguarded` at the started-engine fixture
    holding one cascade. -/
theorem c2_cascade_ops_unguarded_witness :
    ciStartedOne.gi = some giStartedOne ∧
    (((GlobalIlluminationCiVct.AddCascade ciStartedOne).1.cascades.length =
        ciStartedOne.cascades.length + 1 ∧
      (GlobalIlluminationCiVct.AddCascade ciStartedOne).1.gi =
        some { giStartedOne with cascadeCount := giStartedOne.cascadeCount + 1 } ∧
      (GlobalIlluminationCiVct.AddCascade ciStartedOne).2 ≠ none) ∧
     (ciStartedOne.cascades ≠ [] →
       (GlobalIlluminationCiVct.PopCascade ciStartedOne).cascades.length =
         ciStartedOne.cascades.length - 1 ∧
       (GlobalIlluminationCiVct.PopCascade ciStartedOne).gi =
         some { giStartedOne with cascadeCount := giStartedOne.cascadeCount - 1 })) :=
  ⟨rfl, c2_cascade_ops_unguarded ciStartedOne giStartedOne rfl⟩

/-- Claim C3, counterexample: in the fresh state the stored mode already is
    `DVM_None` and the dirty flag is clear, yet writing the identical value
    `DVM_None` again sets `debugVisualizationDirty` (both variants store
    and mark unconditionally, with no same-value check). -/
theorem c3_counterexample :
    initialVctState.debugVisualizationDirty = false ∧
    GlobalIlluminationVct.DebugVisualizationMode initialVctState = DVM_None ∧
    (GlobalIlluminationVct.SetDebugVisualizationMode initialVctState
      DVM_None).debugVisualizationDirty = true ∧
    initialCiVctState.debugVisualizationDirty = false ∧
    GlobalIlluminationCiVct.DebugVisualizationMode initialCiVctState = DVM_None ∧
    (GlobalIlluminationCiVct.SetDebugVisualizationMode initialCiVctState
      DVM_None).debugVisualizationDirty = true :=
  ⟨rfl, rfl, rfl, rfl, rfl, rfl⟩

/-- Claim C3 (amended): every `SetDebugVisualizationMode` call stores the
    mode and sets `debugVisualizationDirty`, even when the new value equals
    the current one (in both plugin variants). -/
theorem c3_setDebugVisualizationMode_always_dirty :
    ∀ (v : VctState) (s : CiVctState) (m : Nat),
      (GlobalIlluminationVct.SetDebugVisualizationMode v m).debugVisMode = m ∧
      (GlobalIlluminationVct.SetDebugVisualizationMode v
        m).debugVisualizationDirty = true ∧
      (GlobalIlluminationCiVct.SetDebugVisualizationMode s m).debugVisMode = m ∧
      (GlobalIlluminationCiVct.SetDebugVisualizationMode s
        m).debugVisualizationDirty = true := by
  intro v s m
  simp [GlobalIlluminationVct.SetDebugVisualizationMode,
    GlobalIlluminationCiVct.SetDebugVisualizationMode]

/-- Helper: `AddCascade` preserves the registry/engine-mirror cardinality
    invariant. -/
theorem addCascade_preserves_aligned (s : CiVctState)
    (h : cascadeMirrorAligned s = true) :
    cascadeMirrorAligned (GlobalIlluminationCiVct.AddCascade s).1 = true := by
  cases hg : s.gi with
  | none => simpa [GlobalIlluminationCiVct.AddCascade, hg] using h
  | some g =>
    simp [cascadeMirrorAligned, hg] at h
    simp [GlobalIlluminationCiVct.AddCascade, hg, cascadeMirrorAligned, h]

/-- Helper: `PopCascade` preserves the registry/engine-mirror cardinality
    invariant. -/
theorem popCascade_preserves_aligned (s : CiVctState)
    (h : cascadeMirrorAligned s = true) :
    cascadeMirrorAligned (GlobalIlluminationCiVct.PopCascade s) = true := by
  by_cases he : s.cascades.isEmpty
  · simpa [GlobalIlluminationCiVct.PopCascade, he] using h
  · cases hg : s.gi with
    | none => simpa [GlobalIlluminationCiVct.PopCascade, he, hg] using h
    | some g =>
      simp [cascadeMirrorAligned, hg] at h
      simp [GlobalIlluminationCiVct.PopCascade, he, hg, cascadeMirrorAligned,
        List.length_dropLast, h]

/-- Claim C5: starting from any state where the registry and the engine
    mirror have the same cardinality, every sequence of `AddCascade` /
    `PopCascade` (`RemoveLast`) calls keeps them equal after every call
    (each prefix of the sequence is itself a sequence); in particular
    `PopCascade` on an empty registry touches neither list (it returns the
    state unchanged). -/
theorem c5_cascade_mirror_invariant :
    ∀ (ops : List CascadeOp) (s : CiVctState),
      cascadeMirrorAligned s = true →
      cascadeMirrorAligned (applyCascadeOps ops s) = true ∧
      (s.cascades = [] → GlobalIlluminationCiVct.PopCascade s = s) := by
  intro ops
  induction ops with
  | nil =>
    intro s h
    refine ⟨h, ?_⟩
    intro hnil
    simp [GlobalIlluminationCiVct.PopCascade, hnil]
  | cons op rest ih =>
    intro s h
    constructor
    · cases op with
      | add =>
        exact (ih _ (addCascade_preserves_aligned s h)).1
      | removeLast =>
        exact (ih _ (popCascade_preserves_aligned s h)).1
    · intro hnil
      simp [GlobalIlluminationCiVct.PopCascade, hnil]

/-- Witness for `c5_cascade_mirror_invariant`: two appends followed by one
    removal, starting from the fresh initialized fixture. -/
theorem c5_cascade_mirror_invariant_witness :
    cascadeMirrorAligned ciFresh = true ∧
    (cascadeMirrorAligned (applyCascadeOps
        [CascadeOp.add, CascadeOp.add, CascadeOp.removeLast] ciFresh) = true ∧
     (ciFresh.cascades = [] →
       GlobalIlluminationCiVct.PopCascade ciFresh = ciFresh)) :=
  ⟨by decide,
   c5_cascade_mirror_invariant
     [CascadeOp.add, CascadeOp.add, CascadeOp.removeLast] ciFresh (by decide)⟩

/-- Claim C9: every VCT configuration setter stores its argument — the
    matching getter immediately returns the value just set — and marks its
    designated dirty flag (`lightingDirty` for bounce count, high quality,
    anisotropic, thin-wall counter and conserve memory; `visualDirty` for
    the per-axis resolutions and for enable/disable), while leaving the
    engine handle untouched (no setter contacts the engine). -/
theorem c9_setters_store_and_mark :
    ∀ (s : VctState) (n : Nat) (b : Bool) (t : Rat),
      GlobalIlluminationVct.BounceCount
        (GlobalIlluminationVct.SetBounceCount s n) = n ∧
      (GlobalIlluminationVct.SetBounceCount s n).lightingDirty = true ∧
      (GlobalIlluminationVct.SetBounceCount s n).gi = s.gi ∧
      GlobalIlluminationVct.HighQuality
        (GlobalIlluminationVct.SetHighQuality s b) = b ∧
      (GlobalIlluminationVct.SetHighQuality s b).lightingDirty = true ∧
      (GlobalIlluminationVct.SetHighQuality s b).gi = s.gi ∧
      GlobalIlluminationVct.Anisotropic
        (GlobalIlluminationVct.SetAnisotropic s b) = b ∧
      (GlobalIlluminationVct.SetAnisotropic s b).lightingDirty = true ∧
      (GlobalIlluminationVct.SetAnisotropic s b).gi = s.gi ∧
      GlobalIlluminationVct.ThinWallCounter
        (GlobalIlluminationVct.SetThinWallCounter s t) = t ∧
      (GlobalIlluminationVct.SetThinWallCounter s t).lightingDirty = true ∧
      (GlobalIlluminationVct.SetThinWallCounter s t).gi = s.gi ∧
      GlobalIlluminationVct.ConserveMemory
        (GlobalIlluminationVct.SetConserveMemory s b) = b ∧
      (GlobalIlluminationVct.SetConserveMemory s b).lightingDirty = true ∧
      (GlobalIlluminationVct.SetConserveMemory s b).gi = s.gi ∧
      GlobalIlluminationVct.ResolutionX
        (GlobalIlluminationVct.SetResolutionX s n) = n ∧
      (GlobalIlluminationVct.SetResolutionX s n).visualDirty = true ∧
      (GlobalIlluminationVct.SetResolutionX s n).gi = s.gi ∧
      GlobalIlluminationVct.ResolutionY
        (GlobalIlluminationVct.SetResolutionY s n) = n ∧
      (GlobalIlluminationVct.SetResolutionY s n).visualDirty = true ∧
      (GlobalIlluminationVct.SetResolutionY s n).gi = s.gi ∧
      GlobalIlluminationVct.ResolutionZ
        (GlobalIlluminationVct.SetResolutionZ s n) = n ∧
      (GlobalIlluminationVct.SetResolutionZ s n).visualDirty = true ∧
      (GlobalIlluminationVct.SetResolutionZ s n).gi = s.gi ∧
      GlobalIlluminationVct.Enabled
        (GlobalIlluminationVct.SetEnabled s b) = b ∧
      (GlobalIlluminationVct.SetEnabled s b).visualDirty = true ∧
      (GlobalIlluminationVct.SetEnabled s b).gi = s.gi := by
  intro s n b t
  refine ⟨rfl, rfl, rfl, rfl, rfl, rfl, rfl, rfl, rfl, rfl, rfl, rfl, rfl,
    rfl, rfl, rfl, rfl, rfl, rfl, rfl, rfl, rfl, rfl, rfl, rfl, rfl, rfl⟩

/-- Helper: a VCT render tick never changes the locally stored `enabled`
    flag (this variant has no external-disable reflection block). -/
theorem vctTick_enabled_eq (avail : Option GiVct) (s : VctState) :
    (GlobalIlluminationVct.eventFilter avail s).state.enabled = s.enabled := by
  obtain ⟨gi, en, res, oct, bc, hq, an, cm, tw, dvm, init, rv, vd, ld, dd⟩ := s
  rcases gi with _ | ⟨⟨ge⟩⟩ <;> rcases avail with _ | ⟨⟨ae⟩⟩
  · cases init <;> cases rv <;> cases vd <;> cases ld <;> cases dd <;>
      cases en <;> rfl
  · cases init <;> cases rv <;> cases vd <;> cases ld <;> cases dd <;>
      cases en <;> cases ae <;> rfl
  · cases init <;> cases rv <;> cases vd <;> cases ld <;> cases dd <;>
      cases en <;> cases ge <;> rfl
  · cases init <;> cases rv <;> cases vd <;> cases ld <;> cases dd <;>
      cases en <;> cases ge <;> cases ae <;> rfl

/-- Helper: a VCT render tick fires no Qt signals. -/
theorem vctTick_signals_nil (avail : Option GiVct) (s : VctState) :
    (GlobalIlluminationVct.eventFilter avail s).signals = [] := by
  obtain ⟨gi, en, res, oct, bc, hq, an, cm, tw, dvm, init, rv, vd, ld, dd⟩ := s
  rcases gi with _ | ⟨⟨ge⟩⟩ <;> rcases avail with _ | ⟨⟨ae⟩⟩
  · cases init <;> cases rv <;> cases vd <;> cases ld <;> cases dd <;>
      cases en <;> rfl
  · cases init <;> cases rv <;> cases vd <;> cases ld <;> cases dd <;>
      cases en <;> cases ae <;> rfl
  · cases init <;> cases rv <;> cases vd <;> cases ld <;> cases dd <;>
      cases en <;> cases ge <;> rfl
  · cases init <;> cases rv <;> cases vd <;> cases ld <;> cases dd <;>
      cases en <;> cases ge <;> cases ae <;> rfl

/-- Claim C4: with an engine handle present, `visualDirty` forces the
    rebuild arm of the dispatch — and only that arm — and on completion all
    three dirty flags are cleared, whatever their entry values; the three
    arms follow strict `else-if` priority rebuild > re-light > debug-only
    (in both plugin variants). -/
theorem c4_visualDirty_rebuild_clears_all :
    ∀ (v : VctState) (gv : GiVct) (av : Option GiVct)
      (c : CiVctState) (gc : GiCiVct) (ac : Option GiCiVct),
      v.initialized = true → v.gi = some gv →
      c.initialized = true → c.gi = some gc →
      ((v.visualDirty = true →
         (GlobalIlluminationVct.eventFilter av v).branch = Branch.rebuild ∧
         (GlobalIlluminationVct.eventFilter av v).state.visualDirty = false ∧
         (GlobalIlluminationVct.eventFilter av v).state.lightingDirty = false ∧
         (GlobalIlluminationVct.eventFilter
           av v).state.debugVisualizationDirty = false) ∧
       (v.visualDirty = false → v.lightingDirty = true →
         (GlobalIlluminationVct.eventFilter av v).branch = Branch.relight) ∧
       (v.visualDirty = false → v.lightingDirty = false →
         v.debugVisualizationDirty = true →
         (GlobalIlluminationVct.eventFilter av v).branch = Branch.debugOnly)) ∧
      ((c.visualDirty = true →
         (GlobalIlluminationCiVct.eventFilter ac c).branch = Branch.rebuild ∧
         (GlobalIlluminationCiVct.eventFilter ac c).state.visualDirty = false ∧
         (GlobalIlluminationCiVct.eventFilter
           ac c).state.lightingDirty = false ∧
         (GlobalIlluminationCiVct.eventFilter
           ac c).state.debugVisualizationDirty = false) ∧
       (c.visualDirty = false → c.lightingDirty = true →
         (GlobalIlluminationCiVct.eventFilter ac c).branch = Branch.relight) ∧
       (c.visualDirty = false → c.lightingDirty = false →
         c.debugVisualizationDirty = true →
         (GlobalIlluminationCiVct.eventFilter
           ac c).branch = Branch.debugOnly)) := by
  intro v gv av c gc ac hvi hvg hci hcg
  constructor
  · obtain ⟨gi, en, res, oct, bc, hq, an, cm, tw, dvm, init, rv, vd, ld, dd⟩ := v
    obtain ⟨ge⟩ := gv
    dsimp only at hvi hvg
    subst hvi hvg
    refine ⟨?_, ?_, ?_⟩
    · intro hvd
      dsimp only at hvd
      subst hvd
      cases rv <;> exact ⟨rfl, rfl, rfl, rfl⟩
    · intro hvd hld
      dsimp only at hvd hld
      subst hvd hld
      cases rv <;> cases ge <;> rfl
    · intro hvd hld hdd
      dsimp only at hvd hld hdd
      subst hvd hld hdd
      cases rv <;> rfl
  · obtain ⟨gi, cas, en, res, bc, hq, an, dvm, cam, init, rv, vd, ld, dd⟩ := c
    obtain ⟨gs, ge, gcnt⟩ := gc
    dsimp only at hci hcg
    subst hci hcg
    refine ⟨?_, ?_, ?_⟩
    · intro hvd
      dsimp only at hvd
      subst hvd
      cases rv <;> exact ⟨rfl, rfl, rfl, rfl⟩
    · intro hvd hld
      dsimp only at hvd hld
      subst hvd hld
      cases rv <;> cases en <;> cases ge <;> rfl
    · intro hvd hld hdd
      dsimp only at hvd hld hdd
      subst hvd hld hdd
      cases rv <;> cases en <;> cases ge <;> rfl

/-- Witness for `c4_visualDirty_rebuild_clears_all` at the enabled fixtures
    with `visualDirty` set. -/
theorem c4_visualDirty_rebuild_clears_all_witness :
    ({ vOn with visualDirty := true } : VctState).initialized = true ∧
    ({ vOn with visualDirty := true } : VctState).gi = some { enabled := true } ∧
    ({ cOn with visualDirty := true } : CiVctState).initialized = true ∧
    ({ cOn with visualDirty := true } : CiVctState).gi =
      some { started := true, enabled := true, cascadeCount := 1 } ∧
    (GlobalIlluminationVct.eventFilter none
      { vOn with visualDirty := true }).branch = Branch.rebuild ∧
    (GlobalIlluminationVct.eventFilter none
      { vOn with visualDirty := true }).state.visualDirty = false ∧
    (GlobalIlluminationVct.eventFilter none
      { vOn with visualDirty := true }).state.lightingDirty = false ∧
    (GlobalIlluminationVct.eventFilter none
      { vOn with visualDirty := true }).state.debugVisualizationDirty = false ∧
    (GlobalIlluminationCiVct.eventFilter none
      { cOn with visualDirty := true }).branch = Branch.rebuild ∧
    (GlobalIlluminationCiVct.eventFilter none
      { cOn with visualDirty := true }).state.visualDirty = false ∧
    (GlobalIlluminationCiVct.eventFilter none
      { cOn with visualDirty := true }).state.lightingDirty = false ∧
    (GlobalIlluminationCiVct.eventFilter none
      { cOn with visualDirty := true }).state.debugVisualizationDirty = false := by
  have h := c4_visualDirty_rebuild_clears_all
    { vOn with visualDirty := true } { enabled := true } none
    { cOn with visualDirty := true }
    { started := true, enabled := true, cascadeCount := 1 } none
    rfl rfl rfl rfl
  obtain ⟨⟨hv, -, -⟩, ⟨hc, -, -⟩⟩ := h
  obtain ⟨hv1, hv2, hv3, hv4⟩ := hv rfl
  obtain ⟨hc1, hc2, hc3, hc4⟩ := hc rfl
  exact ⟨rfl, rfl, rfl, rfl, hv1, hv2, hv3, hv4, hc1, hc2, hc3, hc4⟩

/-- Claim C6, counterexample: the VCT variant's reconciliation has no
    external-disable reflection: on a tick with local `enabled == true`, no
    pending `visualDirty`, and the engine reporting `Enabled() == false`,
    the local flag stays `true` and no signal fires, contradicting the
    claim for one of its two cited reconciliations. -/
theorem c6_counterexample :
    ({ vOff with enabled := true } : VctState).enabled = true ∧
    ({ vOff with enabled := true } : VctState).visualDirty = false ∧
    (GlobalIlluminationVct.eventFilter none
      { vOff with enabled := true }).state.enabled = true ∧
    (GlobalIlluminationVct.eventFilter none
      { vOff with enabled := true }).signals = [] := by
  decide

/-- Claim C6 (amended): the external-disable reflection exists only in the
    CiVct variant: there, a tick entered with local `enabled == true`, no
    pending `visualDirty` and the engine reporting `Enabled() == false`
    flips local `enabled` to false and fires `EnabledChanged` exactly once;
    the VCT variant's tick never changes the local `enabled` flag and fires
    no signal. -/
theorem c6_external_disable_reflection :
    ∀ (c : CiVctState) (g : GiCiVct) (ac : Option GiCiVct)
      (v : VctState) (av : Option GiVct),
      c.initialized = true → c.gi = some g → c.enabled = true →
      c.visualDirty = false → g.enabled = false →
      ((GlobalIlluminationCiVct.eventFilter ac c).state.enabled = false ∧
       (GlobalIlluminationCiVct.eventFilter ac c).signals =
         [GuiSignal.enabledChanged]) ∧
      ((GlobalIlluminationVct.eventFilter av v).state.enabled = v.enabled ∧
       (GlobalIlluminationVct.eventFilter av v).signals = []) := by
  intro c g ac v av h1 h2 h3 h4 h5
  refine ⟨?_, vctTick_enabled_eq av v, vctTick_signals_nil av v⟩
  obtain ⟨gi, cas, en, res, bc, hq, an, dvm, cam, init, rv, vd, ld, dd⟩ := c
  obtain ⟨gs, ge, gcnt⟩ := g
  dsimp only at h1 h2 h3 h4 h5
  subst h1 h2 h3 h4 h5
  cases rv <;> cases ld <;> cases dd <;> cases gs <;> exact ⟨rfl, rfl⟩

/-- Witness for `c6_external_disable_reflection`: the started-engine,
    engine-disabled CiVct fixture with local `enabled := true`, against the
    enabled VCT fixture. -/
theorem c6_external_disable_reflection_witness :
    ({ cOff with enabled := true } : CiVctState).initialized = true ∧
    ({ cOff with enabled := true } : CiVctState).gi = some giStartedOne ∧
    ({ cOff with enabled := true } : CiVctState).enabled = true ∧
    ({ cOff with enabled := true } : CiVctState).visualDirty = false ∧
    giStartedOne.enabled = false ∧
    (((GlobalIlluminationCiVct.eventFilter none
        { cOff with enabled := true }).state.enabled = false ∧
      (GlobalIlluminationCiVct.eventFilter none
        { cOff with enabled := true }).signals =
        [GuiSignal.enabledChanged]) ∧
     ((GlobalIlluminationVct.eventFilter none vOn).state.enabled =
        vOn.enabled ∧
      (GlobalIlluminationVct.eventFilter none vOn).signals = [])) :=
  ⟨rfl, rfl, rfl, rfl, rfl,
   c6_external_disable_reflection { cOff with enabled := true } giStartedOne
     none vOn none rfl rfl rfl rfl rfl⟩

/-- Claim C7: on a tick with `lightingDirty` set and `visualDirty` clear
    (engine handle present), the re-light arm invokes the engine's
    `LightingChanged` if and only if the engine reports GI enabled, and
    `lightingDirty` is cleared either way (in both plugin variants). -/
theorem c7_relight_iff_enabled :
    ∀ (v : VctState) (gv : GiVct) (av : Option GiVct)
      (c : CiVctState) (gc : GiCiVct) (ac : Option GiCiVct),
      v.initialized = true → v.gi = some gv →
      v.lightingDirty = true → v.visualDirty = false →
      c.initialized = true → c.gi = some gc →
      c.lightingDirty = true → c.visualDirty = false →
      ((EngineCall.lightingChanged ∈
          (GlobalIlluminationVct.eventFilter av v).calls ↔
        gv.enabled = true) ∧
       (GlobalIlluminationVct.eventFilter av v).state.lightingDirty = false) ∧
      ((EngineCall.lightingChanged ∈
          (GlobalIlluminationCiVct.eventFilter ac c).calls ↔
        gc.enabled = true) ∧
       (GlobalIlluminationCiVct.eventFilter
         ac c).state.lightingDirty = false) := by
  intro v gv av c gc ac hv1 hv2 hv3 hv4 hc1 hc2 hc3 hc4
  constructor
  · obtain ⟨gi, en, res, oct, bc, hq, an, cm, tw, dvm, init, rv, vd, ld, dd⟩ := v
    obtain ⟨ge⟩ := gv
    dsimp only at hv1 hv2 hv3 hv4
    subst hv1 hv2 hv3 hv4
    cases rv <;> cases ge <;>
      simp [GlobalIlluminationVct.eventFilter]
  · obtain ⟨gi, cas, en, res, bc, hq, an, dvm, cam, init, rv, vd, ld, dd⟩ := c
    obtain ⟨gs, ge, gcnt⟩ := gc
    dsimp only at hc1 hc2 hc3 hc4
    subst hc1 hc2 hc3 hc4
    cases rv <;> cases en <;> cases ge <;>
      simp [GlobalIlluminationCiVct.eventFilter]

/-- Witness for `c7_relight_iff_enabled` at the enabled fixtures with
    `lightingDirty` set. -/
theorem c7_relight_iff_enabled_witness :
    ({ vOn with lightingDirty := true } : VctState).initialized = true ∧
    ({ vOn with lightingDirty := true } : VctState).gi =
      some { enabled := true } ∧
    ({ vOn with lightingDirty := true } : VctState).lightingDirty = true ∧
    ({ vOn with lightingDirty := true } : VctState).visualDirty = false ∧
    ({ cOn with lightingDirty := true } : CiVctState).initialized = true ∧
    ({ cOn with lightingDirty := true } : CiVctState).gi =
      some { started := true, enabled := true, cascadeCount := 1 } ∧
    ({ cOn with lightingDirty := true } : CiVctState).lightingDirty = true ∧
    ({ cOn with lightingDirty := true } : CiVctState).visualDirty = false ∧
    (((EngineCall.lightingChanged ∈
        (GlobalIlluminationVct.eventFilter none
          { vOn with lightingDirty := true }).calls ↔
       GiVct.enabled { enabled := true } = true) ∧
      (GlobalIlluminationVct.eventFilter none
        { vOn with lightingDirty := true }).state.lightingDirty = false) ∧
     ((EngineCall.lightingChanged ∈
        (GlobalIlluminationCiVct.eventFilter none
          { cOn with lightingDirty := true }).calls ↔
       GiCiVct.enabled
         { started := true, enabled := true, cascadeCount := 1 } = true) ∧
      (GlobalIlluminationCiVct.eventFilter none
        { cOn with lightingDirty := true }).state.lightingDirty = false)) :=
  ⟨rfl, rfl, rfl, rfl, rfl, rfl, rfl, rfl,
   c7_relight_iff_enabled { vOn with lightingDirty := true } { enabled := true }
     none { cOn with lightingDirty := true }
     { started := true, enabled := true, cascadeCount := 1 } none
     rfl rfl rfl rfl rfl rfl rfl rfl⟩

/-- Claim C8: a render tick that fires while the engine GI handle is absent
    (and the engine/scene discovery again yields nothing) performs no engine
    call, fires no signal, and returns the state completely unchanged — all
    dirty flags and stored settings survive for the next tick (both plugin
    variants). -/
theorem c8_no_engine_skip :
    ∀ (v : VctState) (c : CiVctState),
      v.gi = none → c.gi = none →
      ((GlobalIlluminationVct.eventFilter none v).state = v ∧
       (GlobalIlluminationVct.eventFilter none v).calls = [] ∧
       (GlobalIlluminationVct.eventFilter none v).signals = []) ∧
      ((GlobalIlluminationCiVct.eventFilter none c).state = c ∧
       (GlobalIlluminationCiVct.eventFilter none c).calls = [] ∧
       (GlobalIlluminationCiVct.eventFilter none c).signals = []) := by
  intro v c hv hc
  constructor
  · refine ⟨?_, ?_, ?_⟩ <;>
      simp [GlobalIlluminationVct.eventFilter,
        GlobalIlluminationVct.LoadGlobalIlluminationVct, hv]
  · refine ⟨?_, ?_, ?_⟩ <;>
      simp [GlobalIlluminationCiVct.eventFilter,
        GlobalIlluminationCiVct.LoadGlobalIlluminationCiVct, hc]

/-- Witness for `c8_no_engine_skip` at the fresh (pre-initialization)
    states. -/
theorem c8_no_engine_skip_witness :
    initialVctState.gi = none ∧
    initialCiVctState.gi = none ∧
    (((GlobalIlluminationVct.eventFilter none initialVctState).state =
        initialVctState ∧
      (GlobalIlluminationVct.eventFilter none initialVctState).calls = [] ∧
      (GlobalIlluminationVct.eventFilter none initialVctState).signals = []) ∧
     ((GlobalIlluminationCiVct.eventFilter none initialCiVctState).state =
        initialCiVctState ∧
      (GlobalIlluminationCiVct.eventFilter none initialCiVctState).calls = [] ∧
      (GlobalIlluminationCiVct.eventFilter
        none initialCiVctState).signals = [])) :=
  ⟨rfl, rfl, c8_no_engine_skip initialVctState initialCiVctState rfl rfl⟩

/-- Claim C10: on a tick with `lightingDirty` set, `visualDirty` clear and
    the engine reporting `Enabled() == false`, the re-light arm clears
    `lightingDirty` but leaves `debugVisualizationDirty` untouched, so a
    pending debug-visualization change survives the tick and is applied by
    the debug-only arm of a later tick (both plugin variants). -/
theorem c10_relight_disabled_preserves_debug_dirty :
    ∀ (v : VctState) (gv : GiVct) (av : Option GiVct)
      (c : CiVctState) (gc : GiCiVct) (ac : Option GiCiVct),
      v.initialized = true → v.gi = some gv →
      v.lightingDirty = true → v.visualDirty = false → gv.enabled = false →
      c.initialized = true → c.gi = some gc →
      c.lightingDirty = true → c.visualDirty = false → gc.enabled = false →
      ((GlobalIlluminationVct.eventFilter av v).state.lightingDirty = false ∧
       (GlobalIlluminationVct.eventFilter
         av v).state.debugVisualizationDirty = v.debugVisualizationDirty ∧
       (GlobalIlluminationVct.eventFilter av v).branch = Branch.relight ∧
       (v.debugVisualizationDirty = true →
         (GlobalIlluminationVct.eventFilter none
           (GlobalIlluminationVct.eventFilter av v).state).branch =
           Branch.debugOnly)) ∧
      ((GlobalIlluminationCiVct.eventFilter ac c).state.lightingDirty = false ∧
       (GlobalIlluminationCiVct.eventFilter
         ac c).state.debugVisualizationDirty = c.debugVisualizationDirty ∧
       (GlobalIlluminationCiVct.eventFilter ac c).branch = Branch.relight ∧
       (c.debugVisualizationDirty = true →
         (GlobalIlluminationCiVct.eventFilter none
           (GlobalIlluminationCiVct.eventFilter ac c).state).branch =
           Branch.debugOnly)) := by
  intro v gv av c gc ac hv1 hv2 hv3 hv4 hv5 hc1 hc2 hc3 hc4 hc5
  constructor
  · obtain ⟨gi, en, res, oct, bc, hq, an, cm, tw, dvm, init, rv, vd, ld, dd⟩ := v
    obtain ⟨ge⟩ := gv
    dsimp only at hv1 hv2 hv3 hv4 hv5
    subst hv1 hv2 hv3 hv4 hv5
    refine ⟨?_, ?_, ?_, ?_⟩ <;> cases rv <;> first
      | rfl
      | (intro hdd; dsimp only at hdd; subst hdd; rfl)
  · obtain ⟨gi, cas, en, res, bc, hq, an, dvm, cam, init, rv, vd, ld, dd⟩ := c
    obtain ⟨gs, ge, gcnt⟩ := gc
    dsimp only at hc1 hc2 hc3 hc4 hc5
    subst hc1 hc2 hc3 hc4 hc5
    refine ⟨?_, ?_, ?_, ?_⟩ <;> cases rv <;> cases en <;> first
      | rfl
      | (intro hdd; dsimp only at hdd; subst hdd; rfl)

/-- Witness for `c10_relight_disabled_preserves_debug_dirty` at the
    engine-disabled fixtures with `lightingDirty` and
    `debugVisualizationDirty` both set. -/
theorem c10_relight_disabled_preserves_debug_dirty_witness :
    ({ vOff with lightingDirty := true, debugVisualizationDirty := true } :
      VctState).initialized = true ∧
    ({ vOff with lightingDirty := true, debugVisualizationDirty := true } :
      VctState).gi = some { enabled := false } ∧
    ({ cOff with lightingDirty := true, debugVisualizationDirty := true } :
      CiVctState).initialized = true ∧
    ({ cOff with lightingDirty := true, debugVisualizationDirty := true } :
      CiVctState).gi = some giStartedOne ∧
    (GlobalIlluminationVct.eventFilter none
      { vOff with lightingDirty := true, debugVisualizationDirty := true
        }).state.lightingDirty = false ∧
    (GlobalIlluminationVct.eventFilter none
      { vOff with lightingDirty := true, debugVisualizationDirty := true
        }).state.debugVisualizationDirty = true ∧
    (GlobalIlluminationVct.eventFilter none
      (GlobalIlluminationVct.eventFilter none
        { vOff with lightingDirty := true, debugVisualizationDirty := true
          }).state).branch = Branch.debugOnly ∧
    (GlobalIlluminationCiVct.eventFilter none
      { cOff with lightingDirty := true, debugVisualizationDirty := true
        }).state.lightingDirty = false ∧
    (GlobalIlluminationCiVct.eventFilter none
      { cOff with lightingDirty := true, debugVisualizationDirty := true
        }).state.debugVisualizationDirty = true ∧
    (GlobalIlluminationCiVct.eventFilter none
      (GlobalIlluminationCiVct.eventFilter none
        { cOff with lightingDirty := true, debugVisualizationDirty := true
          }).state).branch = Branch.debugOnly := by
  have h := c10_relight_disabled_preserves_debug_dirty
    { vOff with lightingDirty := true, debugVisualizationDirty := true }
    { enabled := false } none
    { cOff with lightingDirty := true, debugVisualizationDirty := true }
    giStartedOne none
    rfl rfl rfl rfl rfl rfl rfl rfl rfl rfl
  obtain ⟨⟨hv1, hv2, -, hv4⟩, ⟨hc1, hc2, -, hc4⟩⟩ := h
  exact ⟨rfl, rfl, rfl, rfl, hv1, hv2, hv4 rfl, hc1, hc2, hc4 rfl⟩

end GzGi
